import Mathlib

/-!
# Verification of the porycon metatile decoding and layer composition core

A shallow embedding of the core conversion routines of the `porycon`
package (files `porycon/metatile.py`, `porycon/map_reader.py` and
`porycon/converter.py`), together with proofs about the properties of
the metatile-to-layer routing, the cross-tileset tile router, the
used-tile validation/repair step, the GID allocator, the binary map-grid
decoder, and the animation compositing engine's timeline attachment.

Python integers are modelled as `Nat` (or `Int` where negative values
occur), Python lists as `List`, Python sets as `Finset`, Python dicts as
association lists with insert-overwrite semantics, and raised exceptions
as `Except` values.
-/

/-! ## Constants (`porycon/constants.py`) -/

def NUM_TILES_PER_METATILE : Nat := 8

def NUM_TILES_IN_PRIMARY_VRAM : Nat := 512

def NUM_METATILES_IN_PRIMARY : Nat := 512

/-! ## Metatile unpacking (`porycon/metatile.py`, `unpack_metatile_data`
and `unpack_metatile_data_with_attrs`)

`metatile_data[start_idx : start_idx + 8]` is a Python slice, modelled by
`drop`/`take`.  The guard `metatile_id < 0 or metatile_id * 8 >= len(...)`
returns eight zero entries. -/

def unpack_metatile_data (metatile_id : Int) (metatile_data : List Nat) : List Nat :=
  if metatile_id < 0 ∨ (metatile_data.length : Int) ≤ metatile_id * NUM_TILES_PER_METATILE then
    List.replicate NUM_TILES_PER_METATILE 0
  else
    ((metatile_data.drop (metatile_id * NUM_TILES_PER_METATILE).toNat).take NUM_TILES_PER_METATILE)

def unpack_metatile_data_with_attrs (metatile_id : Int)
    (metatile_data : List (Nat × Nat × Nat)) : List (Nat × Nat × Nat) :=
  if metatile_id < 0 ∨ (metatile_data.length : Int) ≤ metatile_id * NUM_TILES_PER_METATILE then
    List.replicate NUM_TILES_PER_METATILE (0, 0, 0)
  else
    ((metatile_data.drop (metatile_id * NUM_TILES_PER_METATILE).toNat).take NUM_TILES_PER_METATILE)

/-! ## Layer splitting (`porycon/metatile.py`, `split_metatile_to_layers`)

`MetatileLayerType` is an `IntEnum` with values NORMAL = 0, COVERED = 1,
SPLIT = 2; the function compares the argument against those values and
defaults to the NORMAL routing otherwise.  The result triple is
`(bg3_tiles, bg2_tiles, bg1_tiles)`, i.e. (back, middle, front). -/

def split_metatile_to_layers (metatile_tiles : List Nat) (layer_type : Nat) :
    List Nat × List Nat × List Nat :=
  let bottom_tiles := metatile_tiles.take 4
  let top_tiles := (metatile_tiles.drop 4).take 4
  if layer_type = 0 then
    ([0, 0, 0, 0], bottom_tiles, top_tiles)
  else if layer_type = 1 then
    (bottom_tiles, top_tiles, [0, 0, 0, 0])
  else if layer_type = 2 then
    (bottom_tiles, [0, 0, 0, 0], top_tiles)
  else
    ([0, 0, 0, 0], bottom_tiles, top_tiles)

/-- The `MetatileLayerType` `IntEnum` of `porycon/metatile.py`. -/
inductive MetatileLayerType where
  | NORMAL
  | COVERED
  | SPLIT
deriving DecidableEq, Repr

/-- Constructing `MetatileLayerType(layer_type_val)` as called at `converter.py:249`,
`converter.py:1057` and `converter.py:1166`: constructing a Python
`IntEnum` from a value that is not a member raises `ValueError`. -/
def metatileLayerTypeOfVal (v : Nat) : Except String MetatileLayerType :=
  if v = 0 then .ok .NORMAL
  else if v = 1 then .ok .COVERED
  else if v = 2 then .ok .SPLIT
  else .error "is not a valid MetatileLayerType"

/-- Per-cell GID placement of `MapConverter._build_map_layers`
(`converter.py:1175-1198`): result is `(bg3, bg2, bg1)` cell values. -/
def buildMapLayersCell (layer_type : MetatileLayerType) (bottom_gid top_gid : Nat) :
    Nat × Nat × Nat :=
  match layer_type with
  | .NORMAL => (0, bottom_gid, top_gid)
  | .COVERED => (bottom_gid, top_gid, 0)
  | .SPLIT => (bottom_gid, 0, top_gid)

/-! ## Map-grid decoding (`porycon/map_reader.py`, `MapReader.read_map_bin`;
the module-level `read_map_bin` of `porycon/metatile.py` decodes bytes the
same way)

The byte loop is `for i in range(0, len(data), 2): if i + 1 < len(data):
entry = unpack('<H', data[i:i+2])`, so a trailing lone byte is skipped;
afterwards the function raises `ValueError` iff the number of decoded
entries differs from `width * height`. -/

def decodeU16Pairs : List Nat → List Nat
  | lo :: hi :: rest => (lo + 256 * hi) :: decodeU16Pairs rest
  | _ => []

def read_map_bin (data : List Nat) (width height : Nat) :
    Except String (List (List Nat)) :=
  let entries := decodeU16Pairs data
  if entries.length ≠ width * height then
    .error "record count mismatch"
  else
    .ok ((List.range height).map fun y =>
      (List.range width).map fun x => entries.getD (y * width + x) 0)

/-! ## Cross-tileset tile routing (`converter.py:285-306`,
`add_used_tile_with_palette` inside `MapConverter.convert_map`)

The four accumulator sets of `convert_map`; the closure adds a tile
reference to the sets of the bank it routes to. -/

structure UsedTiles where
  used_primary_tiles : Finset Nat
  used_primary_tiles_with_palettes : Finset (Nat × Nat)
  used_secondary_tiles : Finset Nat
  used_secondary_tiles_with_palettes : Finset (Nat × Nat)
deriving DecidableEq

def add_used_tile_with_palette (from_primary_metatile : Bool)
    (tile_id palette_index : Nat) (s : UsedTiles) : UsedTiles :=
  if from_primary_metatile then
    { s with
      used_primary_tiles := insert tile_id s.used_primary_tiles,
      used_primary_tiles_with_palettes :=
        insert (tile_id, palette_index) s.used_primary_tiles_with_palettes }
  else
    if tile_id < NUM_TILES_IN_PRIMARY_VRAM then
      { s with
        used_primary_tiles := insert tile_id s.used_primary_tiles,
        used_primary_tiles_with_palettes :=
          insert (tile_id, palette_index) s.used_primary_tiles_with_palettes }
    else
      let adjusted_id := tile_id - NUM_TILES_IN_PRIMARY_VRAM
      { s with
        used_secondary_tiles := insert adjusted_id s.used_secondary_tiles,
        used_secondary_tiles_with_palettes :=
          insert (adjusted_id, palette_index) s.used_secondary_tiles_with_palettes }

/-! ## Post-routing used-tile validation (`converter.py:357-389`)

After the per-cell loop, `convert_map` filters `used_primary_tiles`
against the primary bank's maximum tile ID, then repairs/filters
`used_secondary_tiles` against the secondary bank's maximum: invalid
secondary IDs below 512 are moved to the primary set, the rest of the
invalid IDs are dropped.  A bank maximum of `none` models the case where
the bank image could not be loaded (`_get_max_tile_id` returned `None`),
in which case the corresponding block is skipped. -/

def validateUsedTiles (used_primary used_secondary : Finset Nat)
    (primary_max_tile secondary_max_tile : Option Nat) : Finset Nat × Finset Nat :=
  let up :=
    match primary_max_tile with
    | some pm => used_primary.filter (fun tid => tid ≤ pm)
    | none => used_primary
  match secondary_max_tile with
  | none => (up, used_secondary)
  | some sm =>
      let invalid_secondary := used_secondary.filter (fun tid => sm < tid)
      let moved :=
        if invalid_secondary = ∅ then (up, used_secondary)
        else
          let misrouted := invalid_secondary.filter (fun tid => tid < 512)
          if misrouted = ∅ then (up, used_secondary)
          else (up ∪ misrouted, used_secondary.filter (fun tid => tid ∉ misrouted))
      (moved.1, moved.2.filter (fun tid => tid ≤ sm))

/-! ## GID allocation with deduplication (`converter.py:1082-1097`, the
image-byte deduplication inside `_process_border_metatiles`; the same
pattern assigns GIDs in `process_single_metatile`)

`image_to_gid` is a Python dict keyed by the raw image bytes; it is
modelled as an association list in insertion order.  `allocateGid`
returns `(gid, image_to_gid, next_gid)` after the lookup/insert. -/

abbrev ImageBytes := List Nat

def findGid : List (ImageBytes × Nat) → ImageBytes → Option Nat
  | [], _ => none
  | (k, v) :: rest, img => if k = img then some v else findGid rest img

def allocateGid (image_to_gid : List (ImageBytes × Nat)) (next_gid : Nat)
    (img : ImageBytes) : Nat × List (ImageBytes × Nat) × Nat :=
  match findGid image_to_gid img with
  | some gid => (gid, image_to_gid, next_gid)
  | none => (next_gid, image_to_gid ++ [(img, next_gid)], next_gid + 1)

/-! ## Animation frame appending (`converter.py:2212-2223`,
`converter.py:2258-2269` and `converter.py:2076-2091`)

Each composited animation frame is appended to the tileset image with
`tile_idx = next_gid - 1; ...; next_gid += 1`; no `image_to_gid` lookup
is performed for these images.  The result pairs each frame's bytes with
the tile index it was assigned, together with the final `next_gid`. -/

def appendAnimationFrames : List ImageBytes → Nat → List (ImageBytes × Nat) × Nat
  | [], next_gid => ([], next_gid)
  | img :: rest, next_gid =>
      let tile_idx := next_gid - 1
      let tail := appendAnimationFrames rest (next_gid + 1)
      ((img, tile_idx) :: tail.1, tail.2)

/-! ## Animation compositing, PHASE 2 strip branch
(`MapConverter._build_metatile_animations`, `converter.py:2109-2301`)

One entry of `anim_info_list` is the tuple appended at
`converter.py:2041-2044`: `(anim_name, frames, duration_ms,
frame_sequence, actual_base_tile_id, num_tiles, animated_tile_range,
is_metatile, layer_gid, tile_position)`.  `animated_tile_range` is
`range(actual_base_tile_id, actual_base_tile_id + num_tiles)` and is
kept derived here instead of stored. -/

abbrev Tile := ImageBytes

structure AnimInfo where
  anim_name : String
  frames : List Tile
  duration_ms : Nat
  frame_sequence : Option (List Nat)
  actual_base_tile_id : Nat
  num_tiles : Nat
  is_metatile : Bool
  layer_gid : Nat
  tile_position : Nat
deriving DecidableEq, Repr

/-- Reading `metatile_tiles[pos]`, a `(tile_id, flip_flags, palette)` triple;
positions recorded in `tile_id_to_gids` are always in `0..7`, so the
default is never consulted on data the converter produces. -/
def tileIdAt (metatile_tiles : List (Nat × Nat × Nat)) (pos : Nat) : Nat :=
  (metatile_tiles.getD pos (0, 0, 0)).1

def flipFlagsAt (metatile_tiles : List (Nat × Nat × Nat)) (pos : Nat) : Nat :=
  (metatile_tiles.getD pos (0, 0, 0)).2.1

/-- One value of the `all_bottom_tiles` / `all_top_tiles` dicts
(`converter.py:2127` and `converter.py:2134`): `(tile_id, flip_flags,
anim_name, frames, actual_base, num_tiles, frame_seq, duration_ms)`. -/
structure HalfTileEntry where
  tile_id : Nat
  flip_flags : Nat
  anim_name : String
  frames : List Tile
  actual_base : Nat
  num_tiles : Nat
  frame_seq : Option (List Nat)
  duration_ms : Nat
deriving DecidableEq, Repr

def mkHalfTileEntry (metatile_tiles : List (Nat × Nat × Nat)) (info : AnimInfo) :
    HalfTileEntry :=
  { tile_id := tileIdAt metatile_tiles info.tile_position
    flip_flags := flipFlagsAt metatile_tiles info.tile_position
    anim_name := info.anim_name
    frames := info.frames
    actual_base := info.actual_base_tile_id
    num_tiles := info.num_tiles
    frame_seq := info.frame_sequence
    duration_ms := info.duration_ms }

/-- Python-dict assignment `d[key] = val`: overwrite in place, append
novel keys in insertion order. -/
def assocInsert {α : Type} (key : Nat) (val : α) : List (Nat × α) → List (Nat × α)
  | [] => [(key, val)]
  | (k, v) :: rest =>
      if k = key then (k, val) :: rest else (k, v) :: assocInsert key val rest

/-- Python-set `add`, modelled with a deterministic insertion order. -/
def setAdd (x : Nat) (s : List Nat) : List Nat := if x ∈ s then s else s ++ [x]

/-- The four accumulators built by the loop at `converter.py:2119-2135`. -/
structure HalfCollect where
  all_bottom_tiles : List (Nat × HalfTileEntry)
  all_top_tiles : List (Nat × HalfTileEntry)
  bottom_layer_gids : List Nat
  top_layer_gids : List Nat
deriving DecidableEq, Repr

/-- One iteration of the loop at `converter.py:2119-2135`: using the
stored `orig_tile_position` to decide the layer, check that the tile at
that position lies in the animation's tile range, and record the entry
and the triggering GID for the corresponding half. -/
def collectStep (metatile_tiles : List (Nat × Nat × Nat)) (acc : HalfCollect)
    (info : AnimInfo) : HalfCollect :=
  if info.tile_position < 4 then
    if info.actual_base_tile_id ≤ tileIdAt metatile_tiles info.tile_position ∧
        tileIdAt metatile_tiles info.tile_position <
          info.actual_base_tile_id + info.num_tiles then
      { acc with
        all_bottom_tiles :=
          assocInsert info.tile_position (mkHalfTileEntry metatile_tiles info)
            acc.all_bottom_tiles
        bottom_layer_gids := setAdd info.layer_gid acc.bottom_layer_gids }
    else acc
  else
    if info.actual_base_tile_id ≤ tileIdAt metatile_tiles info.tile_position ∧
        tileIdAt metatile_tiles info.tile_position <
          info.actual_base_tile_id + info.num_tiles then
      { acc with
        all_top_tiles :=
          assocInsert (info.tile_position - 4) (mkHalfTileEntry metatile_tiles info)
            acc.all_top_tiles
        top_layer_gids := setAdd info.layer_gid acc.top_layer_gids }
    else acc

def collectAnimatedHalves (metatile_tiles : List (Nat × Nat × Nat))
    (anim_info_list : List AnimInfo) : HalfCollect :=
  anim_info_list.foldl (collectStep metatile_tiles) ⟨[], [], [], []⟩

/-- The fallback frame-index computation at `converter.py:2156-2165`
(and its two copies at `converter.py:2186-2195` and `2235-2243`):
`frames_per_cycle = len(frames) // num_tiles` guarded against zero and
degenerate counts. -/
def actualFrameFallback (num_tiles frames_len frame_num : Nat) : Nat :=
  if 0 < num_tiles ∧ 0 < frames_len then
    let frames_per_cycle := frames_len / num_tiles
    if 0 < frames_per_cycle then frame_num % frames_per_cycle else 0
  else 0

/-- The per-step frame selection at `converter.py:2152-2165`: an empty
`frame_sequence` list is falsy in Python, so both `None` and `[]` take
the fallback branch; a non-empty sequence is indexed at
`frame_num % len(frame_seq)`, which is always in bounds. -/
def actualFrameForStep (frame_seq : Option (List Nat)) (num_tiles frames_len frame_num : Nat) :
    Nat :=
  match frame_seq with
  | some fs =>
      if fs.length ≠ 0 then fs.getD (frame_num % fs.length) 0
      else actualFrameFallback num_tiles frames_len frame_num
  | none => actualFrameFallback num_tiles frames_len frame_num

/-- The substituted sub-tile for one animated position at one cycle step
(`converter.py:2167-2170`): `frame_tile_idx = actual_frame * num_tiles +
tile_offset` is used only under the guard
`0 <= frame_tile_idx < len(frames)`; otherwise the base tile is left
unmodified (modelled as `none`). -/
def substituteFrameTile (e : HalfTileEntry) (frame_num : Nat) : Option Tile :=
  let actual_frame := actualFrameForStep e.frame_seq e.num_tiles e.frames.length frame_num
  let tile_offset : Int := (e.tile_id : Int) - (e.actual_base : Int)
  let frame_tile_idx : Int := (actual_frame : Int) * (e.num_tiles : Int) + tile_offset
  if 0 ≤ frame_tile_idx ∧ frame_tile_idx < (e.frames.length : Int) then
    some (e.frames.getD frame_tile_idx.toNat [])
  else none

/-- The bottom-half timeline built at `converter.py:2140-2143`,
`2212-2223` and `2271-2278`: `num_anim_frames = 8`, `duration_ms = 200`,
and the 8 composited bottom frames receive the consecutive tile indices
`next_gid - 1, next_gid, ...`. -/
def bottomFrameTimeline (next_gid : Nat) : List (Nat × Nat) :=
  (List.range 8).map fun frame_num => (next_gid - 1 + frame_num, 200)

/-- The top-half timeline of `converter.py:2226-2269` and `2280-2287`:
the 8 composited top frames are appended after the 8 bottom frames, so
their tile indices start at `next_gid - 1 + 8`. -/
def topFrameTimeline (next_gid : Nat) : List (Nat × Nat) :=
  (List.range 8).map fun frame_num => (next_gid - 1 + 8 + frame_num, 200)

/-- The strip-animation branch of PHASE 2 for one metatile
(`converter.py:2109-2301`), restricted to its observable output: the
`(tile_id_in_animations, timeline)` pairs appended to `animations`
(bottom attachments first, then top attachments, each with id
`gid - 1`), and the final `next_gid`.  The 8 bottom frames are always
appended to the tileset; the 8 top frames only when `all_top_tiles` is
non-empty; a timeline is attached to the recorded layer GIDs of a half
only when that half has animated tiles and the GID is in `used_gids`. -/
def stripAnimationsForMetatile (metatile_tiles : List (Nat × Nat × Nat))
    (anim_info_list : List AnimInfo) (used_gids : List Nat) (next_gid : Nat) :
    List (Nat × List (Nat × Nat)) × Nat :=
  let c := collectAnimatedHalves metatile_tiles anim_info_list
  if c.all_bottom_tiles = [] ∧ c.all_top_tiles = [] then ([], next_gid)
  else
    let composited_frame_gids := bottomFrameTimeline next_gid
    let top_and_gid :=
      if c.all_top_tiles ≠ [] then (topFrameTimeline next_gid, next_gid + 16)
      else ([], next_gid + 8)
    let composited_top_frame_gids := top_and_gid.1
    let bottom_anims :=
      if composited_frame_gids ≠ [] ∧ c.all_bottom_tiles ≠ [] then
        (c.bottom_layer_gids.filter (fun g => g ∈ used_gids)).map
          (fun g => (g - 1, composited_frame_gids))
      else []
    let top_anims :=
      if composited_top_frame_gids ≠ [] ∧ c.all_top_tiles ≠ [] then
        (c.top_layer_gids.filter (fun g => g ∈ used_gids)).map
          (fun g => (g - 1, composited_top_frame_gids))
      else []
    (bottom_anims ++ top_anims, top_and_gid.2)

/-- An animation entry qualifies for the bottom half of its metatile:
its recorded occurrence is at positions 0-3 and the tile reference at
that position lies inside the animation's tile-ID range
(`converter.py:2122-2128`). -/
def qualifiesBottom (metatile_tiles : List (Nat × Nat × Nat)) (info : AnimInfo) : Prop :=
  info.tile_position < 4 ∧
  info.actual_base_tile_id ≤ tileIdAt metatile_tiles info.tile_position ∧
  tileIdAt metatile_tiles info.tile_position < info.actual_base_tile_id + info.num_tiles

/-- An animation entry qualifies for the top half of its metatile
(`converter.py:2129-2135`). -/
def qualifiesTop (metatile_tiles : List (Nat × Nat × Nat)) (info : AnimInfo) : Prop :=
  4 ≤ info.tile_position ∧
  info.actual_base_tile_id ≤ tileIdAt metatile_tiles info.tile_position ∧
  tileIdAt metatile_tiles info.tile_position < info.actual_base_tile_id + info.num_tiles

instance (metatile_tiles : List (Nat × Nat × Nat)) (info : AnimInfo) :
    Decidable (qualifiesBottom metatile_tiles info) := by
  unfold qualifiesBottom; infer_instance

instance (metatile_tiles : List (Nat × Nat × Nat)) (info : AnimInfo) :
    Decidable (qualifiesTop metatile_tiles info) := by
  unfold qualifiesTop; infer_instance

/-! ## Helper lemmas -/

theorem decodeU16Pairs_length : ∀ d : List Nat, (decodeU16Pairs d).length = d.length / 2
  | [] => rfl
  | [_] => by simp [decodeU16Pairs]
  | _ :: _ :: rest => by
      have ih := decodeU16Pairs_length rest
      simp only [decodeU16Pairs, List.length_cons, ih]
      omega

theorem findGid_append_self {m : List (ImageBytes × Nat)} {img : ImageBytes} {g : Nat}
    (h : findGid m img = none) : findGid (m ++ [(img, g)]) img = some g := by
  induction m with
  | nil => simp [findGid]
  | cons p rest ih =>
      obtain ⟨k, v⟩ := p
      by_cases hk : k = img
      · simp [findGid, hk] at h
      · simp only [List.cons_append, findGid, hk, if_false] at h ⊢
        exact ih h

/-! ## Claim theorems -/

/-- C1: splitting a metatile into the three background layers follows
the fixed routing table — NORMAL gives (all-zero, bottom, top), COVERED
gives (bottom, top, all-zero), SPLIT gives (bottom, all-zero, top) —
both in `split_metatile_to_layers` and in the GID placement of
`_build_map_layers`; in particular a SPLIT metatile with bottom tiles
[5,6,7,8] and top tiles [500,501,502,503] puts [5,6,7,8] in the back
layer, zeros in the middle layer, and [500,501,502,503] in the front
layer. -/
theorem layer_routing_table (tiles : List Nat) :
    split_metatile_to_layers tiles 0 = ([0, 0, 0, 0], tiles.take 4, (tiles.drop 4).take 4) ∧
    split_metatile_to_layers tiles 1 = (tiles.take 4, (tiles.drop 4).take 4, [0, 0, 0, 0]) ∧
    split_metatile_to_layers tiles 2 = (tiles.take 4, [0, 0, 0, 0], (tiles.drop 4).take 4) ∧
    (∀ b t : Nat, buildMapLayersCell .NORMAL b t = (0, b, t) ∧
      buildMapLayersCell .COVERED b t = (b, t, 0) ∧
      buildMapLayersCell .SPLIT b t = (b, 0, t)) ∧
    split_metatile_to_layers [5, 6, 7, 8, 500, 501, 502, 503] 2 =
      ([5, 6, 7, 8], [0, 0, 0, 0], [500, 501, 502, 503]) :=
  ⟨rfl, rfl, rfl, fun _ _ => ⟨rfl, rfl, rfl⟩, rfl⟩

/-- C9: `split_metatile_to_layers` does default an out-of-range
layer_type (3-15) to the NORMAL routing, but the converter pipeline
never reaches it: `MetatileLayerType(layer_type_val)` at
`converter.py:249` (and `:1057`, `:1166`) raises `ValueError` for every
value outside 0-2, so the map conversion aborts instead of treating the
metatile as NORMAL. -/
theorem out_of_range_layer_type (v : Nat) (h3 : 3 ≤ v) (tiles : List Nat) :
    metatileLayerTypeOfVal v = Except.error "is not a valid MetatileLayerType" ∧
    split_metatile_to_layers tiles v =
      ([0, 0, 0, 0], tiles.take 4, (tiles.drop 4).take 4) := by
  have h0 : v ≠ 0 := by omega
  have h1 : v ≠ 1 := by omega
  have h2 : v ≠ 2 := by omega
  exact ⟨by simp [metatileLayerTypeOfVal, h0, h1, h2],
    by simp [split_metatile_to_layers, h0, h1, h2]⟩

theorem out_of_range_layer_type_witness :
    (3 : Nat) ≤ 3 ∧
    (metatileLayerTypeOfVal 3 = Except.error "is not a valid MetatileLayerType" ∧
     split_metatile_to_layers [1, 2, 3, 4, 5, 6, 7, 8] 3 =
       ([0, 0, 0, 0], [1, 2, 3, 4], [5, 6, 7, 8])) :=
  ⟨by decide, out_of_range_layer_type 3 (by decide) [1, 2, 3, 4, 5, 6, 7, 8]⟩

/-- C10: unpacking a metatile definition is total, and whenever
`metatile_id` is negative or `metatile_id * 8` is at or beyond the end
of the metatile table, `unpack_metatile_data` returns exactly eight zero
tile IDs and `unpack_metatile_data_with_attrs` exactly eight (0,0,0)
tuples. -/
theorem out_of_range_metatile_unpack (metatile_id : Int) (d : List Nat)
    (da : List (Nat × Nat × Nat)) :
    (metatile_id < 0 ∨ (d.length : Int) ≤ metatile_id * NUM_TILES_PER_METATILE →
      unpack_metatile_data metatile_id d = List.replicate 8 0) ∧
    (metatile_id < 0 ∨ (da.length : Int) ≤ metatile_id * NUM_TILES_PER_METATILE →
      unpack_metatile_data_with_attrs metatile_id da = List.replicate 8 (0, 0, 0)) := by
  constructor
  · intro h
    unfold unpack_metatile_data
    rw [if_pos h]
    rfl
  · intro h
    unfold unpack_metatile_data_with_attrs
    rw [if_pos h]
    rfl

theorem out_of_range_metatile_unpack_witness :
    (((-1 : Int) < 0 ∨ (([3, 4] : List Nat).length : Int) ≤ -1 * NUM_TILES_PER_METATILE) ∧
      unpack_metatile_data (-1) [3, 4] = List.replicate 8 0) ∧
    ((1024 * NUM_TILES_PER_METATILE : Int) ≥ (([] : List (Nat × Nat × Nat)).length : Int) ∧
      unpack_metatile_data_with_attrs 1024 [] = List.replicate 8 (0, 0, 0)) :=
  ⟨⟨Or.inl (by decide), (out_of_range_metatile_unpack (-1) [3, 4] []).1 (Or.inl (by decide))⟩,
   ⟨by decide, (out_of_range_metatile_unpack 1024 [] []).2 (Or.inr (by decide))⟩⟩

/-- C7 counterexample: a 3-byte buffer for a 1x1 map (width*height*2 + 1
bytes) decodes successfully — the trailing lone byte is silently
dropped — contradicting the claim that such a buffer must raise. -/
theorem truncated_map_bin_counterexample :
    read_map_bin [1, 0, 99] 1 1 = Except.ok [[1]] := rfl

/-- Decoding succeeds exactly when the decoded record count equals
`width * height`. -/
theorem read_map_bin_ok_iff (data : List Nat) (width height : Nat) :
    (∃ rows, read_map_bin data width height = Except.ok rows) ↔
      (decodeU16Pairs data).length = width * height := by
  unfold read_map_bin
  by_cases hc : (decodeU16Pairs data).length = width * height
  · simp [hc]
  · simp [hc]

/-- C7 amended: `read_map_bin` silently drops a trailing partial record
and succeeds exactly when the number of complete little-endian 2-byte
records equals `width * height`; in particular a buffer of
`width*height*2 + 1` bytes decodes successfully. -/
theorem map_bin_record_count (data : List Nat) (width height : Nat) :
    ((∃ rows, read_map_bin data width height = Except.ok rows) ↔
      data.length / 2 = width * height) ∧
    (data.length = 2 * (width * height) + 1 →
      ∃ rows, read_map_bin data width height = Except.ok rows) := by
  have hlen := decodeU16Pairs_length data
  have hiff : (∃ rows, read_map_bin data width height = Except.ok rows) ↔
      data.length / 2 = width * height := by
    rw [read_map_bin_ok_iff, hlen]
  exact ⟨hiff, fun hdl => hiff.mpr (by omega)⟩

theorem map_bin_record_count_witness :
    ([1, 0, 99] : List Nat).length = 2 * (1 * 1) + 1 ∧
    ∃ rows, read_map_bin [1, 0, 99] 1 1 = Except.ok rows :=
  ⟨by decide, (map_bin_record_count [1, 0, 99] 1 1).2 (by decide)⟩

/-- C2: tile references from a primary-tileset metatile are always added
to the primary bank with their ID unchanged; references from a
secondary-tileset metatile go to the primary bank unchanged when the ID
is below 512 and to the secondary bank as `tile_id - 512` otherwise; in
particular `tile_id = 600` from a secondary metatile lands in the
secondary bank as 88.  The other bank's used-tile set is untouched. -/
theorem tile_router (tile_id palette_index : Nat) (s : UsedTiles) :
    (add_used_tile_with_palette true tile_id palette_index s).used_primary_tiles =
      insert tile_id s.used_primary_tiles ∧
    (add_used_tile_with_palette true tile_id palette_index s).used_secondary_tiles =
      s.used_secondary_tiles ∧
    (add_used_tile_with_palette false tile_id palette_index s).used_primary_tiles =
      (if tile_id < 512 then insert tile_id s.used_primary_tiles
       else s.used_primary_tiles) ∧
    (add_used_tile_with_palette false tile_id palette_index s).used_secondary_tiles =
      (if tile_id < 512 then s.used_secondary_tiles
       else insert (tile_id - 512) s.used_secondary_tiles) ∧
    (add_used_tile_with_palette false 600 palette_index s).used_secondary_tiles =
      insert 88 s.used_secondary_tiles := by
  refine ⟨rfl, rfl, ?_, ?_, ?_⟩
  · by_cases h : tile_id < 512 <;>
      simp [add_used_tile_with_palette, NUM_TILES_IN_PRIMARY_VRAM, h]
  · by_cases h : tile_id < 512 <;>
      simp [add_used_tile_with_palette, NUM_TILES_IN_PRIMARY_VRAM, h]
  · simp [add_used_tile_with_palette, NUM_TILES_IN_PRIMARY_VRAM]

/-- C5: the GID allocator deduplicates by exact image bytes and is
idempotent: a previously seen byte sequence returns its recorded GID
with the mapping and counter untouched; a novel byte sequence returns
the current `next_gid`, appends one mapping entry, and increments the
counter; re-allocating the image just allocated returns the same GID
and changes nothing; the mapping grows only on novel content. -/
theorem gid_allocator (m : List (ImageBytes × Nat)) (next_gid : Nat) (img : ImageBytes) :
    (allocateGid m next_gid img).1 = (findGid m img).getD next_gid ∧
    (allocateGid m next_gid img).2.1 =
      (if findGid m img = none then m ++ [(img, next_gid)] else m) ∧
    (allocateGid m next_gid img).2.2 =
      (if findGid m img = none then next_gid + 1 else next_gid) ∧
    allocateGid (allocateGid m next_gid img).2.1 (allocateGid m next_gid img).2.2 img =
      ((allocateGid m next_gid img).1, (allocateGid m next_gid img).2.1,
        (allocateGid m next_gid img).2.2) ∧
    (allocateGid m next_gid img).2.1.length =
      m.length + (if findGid m img = none then 1 else 0) := by
  cases h : findGid m img with
  | none =>
      refine ⟨?_, ?_, ?_, ?_, ?_⟩ <;>
        simp [allocateGid, h, findGid_append_self h]
  | some g =>
      refine ⟨?_, ?_, ?_, ?_, ?_⟩ <;>
        simp [allocateGid, h]

/-- C6 counterexample: two byte-identical composited animation frame
images appended by `_build_metatile_animations` receive the distinct
tile indices 4 and 5 — they occupy two atlas slots, so frame images do
not go through the deduplicating allocator. -/
theorem anim_frame_dedup_counterexample :
    (appendAnimationFrames [[1, 2, 3], [1, 2, 3]] 5).1 =
      [([1, 2, 3], 4), ([1, 2, 3], 5)] ∧ (4 : Nat) ≠ 5 :=
  ⟨rfl, by decide⟩

/-- C6 amended: every newly produced animation frame image is appended
to the atlas with a fresh sequential tile index `next_gid - 1` and the
counter advances by one per frame, with no lookup in the byte-to-GID
mapping; byte-identical frames therefore occupy distinct atlas slots. -/
theorem anim_frame_append_sequential (imgs : List ImageBytes) (next_gid : Nat)
    (h : 1 ≤ next_gid) :
    (appendAnimationFrames imgs next_gid).1.map Prod.snd =
      (List.range imgs.length).map (fun i => next_gid - 1 + i) ∧
    (appendAnimationFrames imgs next_gid).2 = next_gid + imgs.length := by
  induction imgs generalizing next_gid with
  | nil => simp [appendAnimationFrames]
  | cons img rest ih =>
      obtain ⟨ih1, ih2⟩ := ih (next_gid + 1) (by omega)
      constructor
      · simp only [appendAnimationFrames, List.map_cons, ih1, List.length_cons,
          List.range_succ_eq_map, List.map_map]
        refine congrArg (fun l => (next_gid - 1 + 0) :: l) ?_
        refine List.map_congr_left fun i hi => ?_
        simp [Function.comp]
        omega
      · simp only [appendAnimationFrames, ih2, List.length_cons]
        omega

theorem anim_frame_append_sequential_witness :
    (1 : Nat) ≤ 5 ∧
    ((appendAnimationFrames [[1, 2, 3], [1, 2, 3]] 5).1.map Prod.snd = [4, 5] ∧
     (appendAnimationFrames [[1, 2, 3], [1, 2, 3]] 5).2 = 7) :=
  ⟨by decide, anim_frame_append_sequential [[1, 2, 3], [1, 2, 3]] 5 (by decide)⟩

/-- Normal form of the post-routing validation step: the secondary set
ends as its members at most the secondary maximum, and the primary set
gains exactly the invalid sub-512 secondary IDs. -/
theorem validateUsedTiles_eq (up us : Finset Nat) (pm : Option Nat) (sm : Nat) :
    validateUsedTiles up us pm (some sm) =
      ((match pm with
        | some p => up.filter (fun tid => tid ≤ p)
        | none => up) ∪ us.filter (fun tid => sm < tid ∧ tid < 512),
       us.filter (fun tid => tid ≤ sm)) := by
  have hmis : (us.filter (fun tid => sm < tid)).filter (fun tid => tid < 512) =
      us.filter (fun tid => sm < tid ∧ tid < 512) := by
    rw [Finset.filter_filter]
  simp only [validateUsedTiles]
  by_cases hinv : us.filter (fun tid => sm < tid) = ∅
  · have h0 : us.filter (fun tid => sm < tid ∧ tid < 512) = ∅ := by
      rw [← hmis, hinv, Finset.filter_empty]
    rw [hinv]
    simp [h0]
  · rw [if_neg hinv]
    by_cases hm : (us.filter (fun tid => sm < tid)).filter (fun tid => tid < 512) = ∅
    · have h0 : us.filter (fun tid => sm < tid ∧ tid < 512) = ∅ := by
        rw [← hmis, hm]
      rw [if_pos hm]
      simp [h0]
    · rw [if_neg hm]
      refine Prod.ext ?_ ?_
      · simp only [hmis]
      · show (us.filter
            (fun tid => tid ∉ (us.filter (fun t => sm < t)).filter (fun t => t < 512))).filter
            (fun tid => tid ≤ sm) = us.filter (fun tid => tid ≤ sm)
        rw [hmis]
        ext x
        simp only [Finset.mem_filter]
        constructor
        · rintro ⟨⟨hx, _⟩, hle⟩
          exact ⟨hx, hle⟩
        · rintro ⟨hx, hle⟩
          refine ⟨⟨hx, ?_⟩, hle⟩
          rintro ⟨_, hgt, _⟩
          omega

/-- C3 (amended): after the post-routing validation step every ID left
in the secondary used-tile set is at most the secondary bank's maximum;
every invalid secondary ID below 512 is moved into the primary set
rather than dropped; invalid IDs of 512 or more are dropped; a second
application never changes the secondary set, and it also leaves the
primary set unchanged provided the primary bank's maximum (when known)
is at least 511, so that the moved sub-512 IDs survive the primary
filter. -/
theorem used_tile_validation (up us : Finset Nat) (pm : Option Nat) (sm : Nat) :
    (∀ x ∈ (validateUsedTiles up us pm (some sm)).2, x ≤ sm) ∧
    (∀ x ∈ us, sm < x → x < 512 →
      x ∈ (validateUsedTiles up us pm (some sm)).1 ∧
      x ∉ (validateUsedTiles up us pm (some sm)).2) ∧
    (∀ x ∈ us, sm < x → 512 ≤ x →
      x ∉ (validateUsedTiles up us pm (some sm)).2 ∧
      (x ∉ up → x ∉ (validateUsedTiles up us pm (some sm)).1)) ∧
    (validateUsedTiles (validateUsedTiles up us pm (some sm)).1
        (validateUsedTiles up us pm (some sm)).2 pm (some sm)).2 =
      (validateUsedTiles up us pm (some sm)).2 ∧
    ((∀ p, pm = some p → 511 ≤ p) →
      validateUsedTiles (validateUsedTiles up us pm (some sm)).1
        (validateUsedTiles up us pm (some sm)).2 pm (some sm) =
      validateUsedTiles up us pm (some sm)) := by
  simp only [validateUsedTiles_eq]
  have hZ : ((us.filter (fun tid => tid ≤ sm)).filter
      (fun tid => sm < tid ∧ tid < 512)) = ∅ := by
    ext x
    simp only [Finset.mem_filter, Finset.not_mem_empty, iff_false]
    rintro ⟨⟨_, hle⟩, hgt, _⟩
    omega
  have hW : ((us.filter (fun tid => tid ≤ sm)).filter (fun tid => tid ≤ sm)) =
      us.filter (fun tid => tid ≤ sm) := by
    rw [Finset.filter_filter]
    simp
  refine ⟨?_, ?_, ?_, ?_, ?_⟩
  · intro x hx
    exact (Finset.mem_filter.mp hx).2
  · intro x hx hgt hlt
    refine ⟨Finset.mem_union_right _ (Finset.mem_filter.mpr ⟨hx, hgt, hlt⟩), ?_⟩
    simp only [Finset.mem_filter, not_and]
    intro _
    omega
  · intro x hx hgt hge
    constructor
    · simp only [Finset.mem_filter, not_and]
      intro _
      omega
    · intro hup hmem
      rcases Finset.mem_union.mp hmem with h | h
      · cases pm with
        | none => exact hup h
        | some p => exact hup (Finset.mem_filter.mp h).1
      · have := (Finset.mem_filter.mp h).2
        omega
  · rw [hW]
  · intro hp
    refine Prod.ext ?_ (by rw [hW])
    rw [hZ, Finset.union_empty]
    cases pm with
    | none => rfl
    | some p =>
        have hP := hp p rfl
        dsimp only
        rw [Finset.filter_union]
        refine congrArg₂ (· ∪ ·) ?_ ?_
        · rw [Finset.filter_filter]
          simp
        · refine Finset.filter_eq_self.mpr ?_
          intro x hx
          have h2 := (Finset.mem_filter.mp hx).2
          omega

theorem used_tile_validation_witness :
    600 ∈ ({600} : Finset Nat) ∧ (50 : Nat) < 600 ∧ (512 : Nat) ≤ 600 ∧
    (600 ∉ (validateUsedTiles ∅ {600} none (some 50)).2 ∧
      (600 ∉ (∅ : Finset Nat) → 600 ∉ (validateUsedTiles ∅ {600} none (some 50)).1)) :=
  ⟨by decide, by decide, by decide,
    (used_tile_validation ∅ {600} none 50).2.2.1 600 (by decide) (by decide) (by decide)⟩

/-- C3 counterexample: the full validation step is not idempotent as
claimed — with a primary maximum of 100 and a secondary maximum of 50,
the invalid secondary ID 200 is moved to the primary set by the first
application and then dropped from it by the second, so the two
applications disagree. -/
theorem used_tile_validation_counterexample :
    validateUsedTiles (validateUsedTiles ∅ {200} (some 100) (some 50)).1
        (validateUsedTiles ∅ {200} (some 100) (some 50)).2 (some 100) (some 50) ≠
      validateUsedTiles ∅ {200} (some 100) (some 50) := by decide

theorem setAdd_mem {x y : Nat} {s : List Nat} (h : x ∈ setAdd y s) : x ∈ s ∨ x = y := by
  unfold setAdd at h
  split at h
  · exact Or.inl h
  · rcases List.mem_append.mp h with h | h
    · exact Or.inl h
    · simp at h
      exact Or.inr h

theorem collectStep_bottom_frozen (mt : List (Nat × Nat × Nat)) (acc : HalfCollect)
    (info : AnimInfo) (h : ¬ qualifiesBottom mt info) :
    (collectStep mt acc info).all_bottom_tiles = acc.all_bottom_tiles ∧
    (collectStep mt acc info).bottom_layer_gids = acc.bottom_layer_gids := by
  unfold collectStep
  split
  · next hpos =>
      split
      · next hrange => exact absurd ⟨hpos, hrange.1, hrange.2⟩ h
      · exact ⟨rfl, rfl⟩
  · split
    · exact ⟨rfl, rfl⟩
    · exact ⟨rfl, rfl⟩

theorem collectStep_top_frozen (mt : List (Nat × Nat × Nat)) (acc : HalfCollect)
    (info : AnimInfo) (h : ¬ qualifiesTop mt info) :
    (collectStep mt acc info).all_top_tiles = acc.all_top_tiles ∧
    (collectStep mt acc info).top_layer_gids = acc.top_layer_gids := by
  unfold collectStep
  split
  · split
    · exact ⟨rfl, rfl⟩
    · exact ⟨rfl, rfl⟩
  · next hpos =>
      split
      · next hrange => exact absurd ⟨by omega, hrange.1, hrange.2⟩ h
      · exact ⟨rfl, rfl⟩

theorem foldl_bottom_frozen (mt : List (Nat × Nat × Nat)) (infos : List AnimInfo) :
    ∀ acc : HalfCollect, (∀ i ∈ infos, ¬ qualifiesBottom mt i) →
      (infos.foldl (collectStep mt) acc).all_bottom_tiles = acc.all_bottom_tiles ∧
      (infos.foldl (collectStep mt) acc).bottom_layer_gids = acc.bottom_layer_gids := by
  induction infos with
  | nil => exact fun acc _ => ⟨rfl, rfl⟩
  | cons i rest ih =>
      intro acc h
      have hstep := collectStep_bottom_frozen mt acc i (h i (by simp))
      have hrest := ih (collectStep mt acc i) (fun j hj => h j (by simp [hj]))
      exact ⟨hrest.1.trans hstep.1, hrest.2.trans hstep.2⟩

theorem foldl_top_frozen (mt : List (Nat × Nat × Nat)) (infos : List AnimInfo) :
    ∀ acc : HalfCollect, (∀ i ∈ infos, ¬ qualifiesTop mt i) →
      (infos.foldl (collectStep mt) acc).all_top_tiles = acc.all_top_tiles ∧
      (infos.foldl (collectStep mt) acc).top_layer_gids = acc.top_layer_gids := by
  induction infos with
  | nil => exact fun acc _ => ⟨rfl, rfl⟩
  | cons i rest ih =>
      intro acc h
      have hstep := collectStep_top_frozen mt acc i (h i (by simp))
      have hrest := ih (collectStep mt acc i) (fun j hj => h j (by simp [hj]))
      exact ⟨hrest.1.trans hstep.1, hrest.2.trans hstep.2⟩

theorem collectStep_bottom_gid_origin (mt : List (Nat × Nat × Nat)) (acc : HalfCollect)
    (info : AnimInfo) {g : Nat} (h : g ∈ (collectStep mt acc info).bottom_layer_gids) :
    g ∈ acc.bottom_layer_gids ∨ (qualifiesBottom mt info ∧ info.layer_gid = g) := by
  unfold collectStep at h
  split at h
  · next hpos =>
      split at h
      · next hrange =>
          rcases setAdd_mem h with h | h
          · exact Or.inl h
          · exact Or.inr ⟨⟨hpos, hrange.1, hrange.2⟩, h.symm⟩
      · exact Or.inl h
  · split at h
    · exact Or.inl h
    · exact Or.inl h

theorem collectStep_top_gid_origin (mt : List (Nat × Nat × Nat)) (acc : HalfCollect)
    (info : AnimInfo) {g : Nat} (h : g ∈ (collectStep mt acc info).top_layer_gids) :
    g ∈ acc.top_layer_gids ∨ (qualifiesTop mt info ∧ info.layer_gid = g) := by
  unfold collectStep at h
  split at h
  · split at h
    · exact Or.inl h
    · exact Or.inl h
  · next hpos =>
      split at h
      · next hrange =>
          rcases setAdd_mem h with h | h
          · exact Or.inl h
          · exact Or.inr ⟨⟨by omega, hrange.1, hrange.2⟩, h.symm⟩
      · exact Or.inl h

theorem foldl_bottom_gid_origin (mt : List (Nat × Nat × Nat)) (infos : List AnimInfo) :
    ∀ (acc : HalfCollect) (g : Nat), g ∈ (infos.foldl (collectStep mt) acc).bottom_layer_gids →
      g ∈ acc.bottom_layer_gids ∨ ∃ i ∈ infos, qualifiesBottom mt i ∧ i.layer_gid = g := by
  induction infos with
  | nil => exact fun acc g h => Or.inl h
  | cons i rest ih =>
      intro acc g h
      rcases ih (collectStep mt acc i) g h with h | ⟨j, hj, hq⟩
      · rcases collectStep_bottom_gid_origin mt acc i h with h | hq
        · exact Or.inl h
        · exact Or.inr ⟨i, by simp, hq⟩
      · exact Or.inr ⟨j, by simp [hj], hq⟩

theorem foldl_top_gid_origin (mt : List (Nat × Nat × Nat)) (infos : List AnimInfo) :
    ∀ (acc : HalfCollect) (g : Nat), g ∈ (infos.foldl (collectStep mt) acc).top_layer_gids →
      g ∈ acc.top_layer_gids ∨ ∃ i ∈ infos, qualifiesTop mt i ∧ i.layer_gid = g := by
  induction infos with
  | nil => exact fun acc g h => Or.inl h
  | cons i rest ih =>
      intro acc g h
      rcases ih (collectStep mt acc i) g h with h | ⟨j, hj, hq⟩
      · rcases collectStep_top_gid_origin mt acc i h with h | hq
        · exact Or.inl h
        · exact Or.inr ⟨i, by simp, hq⟩
      · exact Or.inr ⟨j, by simp [hj], hq⟩

theorem bottom_top_timeline_ne (next_gid : Nat) :
    bottomFrameTimeline next_gid ≠ topFrameTimeline next_gid := by
  intro h
  have h0 := congrArg (fun l => l.headD (0, 0)) h
  simp [bottomFrameTimeline, topFrameTimeline,
    show List.range 8 = [0, 1, 2, 3, 4, 5, 6, 7] from rfl] at h0

theorem bottomFrameTimeline_ne_nil (next_gid : Nat) : bottomFrameTimeline next_gid ≠ [] := by
  simp [bottomFrameTimeline]

theorem topFrameTimeline_ne_nil (next_gid : Nat) : topFrameTimeline next_gid ≠ [] := by
  simp [topFrameTimeline]

theorem stripAnimations_fst_none (mt : List (Nat × Nat × Nat)) (infos : List AnimInfo)
    (used_gids : List Nat) (next_gid : Nat)
    (hcb : (collectAnimatedHalves mt infos).all_bottom_tiles = [])
    (hct : (collectAnimatedHalves mt infos).all_top_tiles = []) :
    (stripAnimationsForMetatile mt infos used_gids next_gid).1 = [] := by
  simp [stripAnimationsForMetatile, hcb, hct]

theorem stripAnimations_fst_top (mt : List (Nat × Nat × Nat)) (infos : List AnimInfo)
    (used_gids : List Nat) (next_gid : Nat)
    (hcb : (collectAnimatedHalves mt infos).all_bottom_tiles = [])
    (hct : (collectAnimatedHalves mt infos).all_top_tiles ≠ []) :
    (stripAnimationsForMetatile mt infos used_gids next_gid).1 =
      ((collectAnimatedHalves mt infos).top_layer_gids.filter
        (fun g => g ∈ used_gids)).map (fun g => (g - 1, topFrameTimeline next_gid)) := by
  have htne := topFrameTimeline_ne_nil next_gid
  simp [stripAnimationsForMetatile, hcb, hct, htne]

theorem stripAnimations_fst_bottom (mt : List (Nat × Nat × Nat)) (infos : List AnimInfo)
    (used_gids : List Nat) (next_gid : Nat)
    (hcb : (collectAnimatedHalves mt infos).all_bottom_tiles ≠ [])
    (hct : (collectAnimatedHalves mt infos).all_top_tiles = []) :
    (stripAnimationsForMetatile mt infos used_gids next_gid).1 =
      ((collectAnimatedHalves mt infos).bottom_layer_gids.filter
        (fun g => g ∈ used_gids)).map (fun g => (g - 1, bottomFrameTimeline next_gid)) := by
  have hbne := bottomFrameTimeline_ne_nil next_gid
  simp [stripAnimationsForMetatile, hcb, hct, hbne]

theorem stripAnimations_fst_both (mt : List (Nat × Nat × Nat)) (infos : List AnimInfo)
    (used_gids : List Nat) (next_gid : Nat)
    (hcb : (collectAnimatedHalves mt infos).all_bottom_tiles ≠ [])
    (hct : (collectAnimatedHalves mt infos).all_top_tiles ≠ []) :
    (stripAnimationsForMetatile mt infos used_gids next_gid).1 =
      ((collectAnimatedHalves mt infos).bottom_layer_gids.filter
        (fun g => g ∈ used_gids)).map (fun g => (g - 1, bottomFrameTimeline next_gid)) ++
      ((collectAnimatedHalves mt infos).top_layer_gids.filter
        (fun g => g ∈ used_gids)).map (fun g => (g - 1, topFrameTimeline next_gid)) := by
  have hbne := bottomFrameTimeline_ne_nil next_gid
  have htne := topFrameTimeline_ne_nil next_gid
  simp [stripAnimationsForMetatile, hcb, hct, hbne, htne]

/-- C4: animation timelines are attached per half independently — if no
animation entry of a metatile qualifies for the bottom half (its
recorded occurrence at positions 0-3 with the tile in the animated
range), the strip branch emits no bottom-half timeline for it, and
symmetrically for the top half; the two timelines are never equal, and
every attached bottom (resp. top) timeline belongs to the layer GID of
some animation entry whose occurrence is at positions 0-3 (resp. 4-7). -/
theorem animation_half_targeting (mt : List (Nat × Nat × Nat)) (infos : List AnimInfo)
    (used_gids : List Nat) (next_gid : Nat) :
    ((∀ i ∈ infos, ¬ qualifiesBottom mt i) →
      ∀ e ∈ (stripAnimationsForMetatile mt infos used_gids next_gid).1,
        e.2 = topFrameTimeline next_gid) ∧
    ((∀ i ∈ infos, ¬ qualifiesTop mt i) →
      ∀ e ∈ (stripAnimationsForMetatile mt infos used_gids next_gid).1,
        e.2 = bottomFrameTimeline next_gid) ∧
    bottomFrameTimeline next_gid ≠ topFrameTimeline next_gid ∧
    (∀ g tl, (g, tl) ∈ (stripAnimationsForMetatile mt infos used_gids next_gid).1 →
      tl = bottomFrameTimeline next_gid →
      ∃ i ∈ infos, qualifiesBottom mt i ∧ i.layer_gid - 1 = g) ∧
    (∀ g tl, (g, tl) ∈ (stripAnimationsForMetatile mt infos used_gids next_gid).1 →
      tl = topFrameTimeline next_gid →
      ∃ i ∈ infos, qualifiesTop mt i ∧ i.layer_gid - 1 = g) := by
  refine ⟨?_, ?_, bottom_top_timeline_ne next_gid, ?_, ?_⟩
  · intro hnb e he
    have hcb : (collectAnimatedHalves mt infos).all_bottom_tiles = [] :=
      (foldl_bottom_frozen mt infos _ hnb).1
    by_cases hct : (collectAnimatedHalves mt infos).all_top_tiles = []
    · rw [stripAnimations_fst_none mt infos used_gids next_gid hcb hct] at he
      cases he
    · rw [stripAnimations_fst_top mt infos used_gids next_gid hcb hct] at he
      obtain ⟨g, _, rfl⟩ := List.mem_map.mp he
      rfl
  · intro hnt e he
    have hct : (collectAnimatedHalves mt infos).all_top_tiles = [] :=
      (foldl_top_frozen mt infos _ hnt).1
    by_cases hcb : (collectAnimatedHalves mt infos).all_bottom_tiles = []
    · rw [stripAnimations_fst_none mt infos used_gids next_gid hcb hct] at he
      cases he
    · rw [stripAnimations_fst_bottom mt infos used_gids next_gid hcb hct] at he
      obtain ⟨g, _, rfl⟩ := List.mem_map.mp he
      rfl
  · intro g tl hmem htl
    by_cases hcb : (collectAnimatedHalves mt infos).all_bottom_tiles = [] <;>
      by_cases hct : (collectAnimatedHalves mt infos).all_top_tiles = []
    · rw [stripAnimations_fst_none mt infos used_gids next_gid hcb hct] at hmem
      cases hmem
    · rw [stripAnimations_fst_top mt infos used_gids next_gid hcb hct] at hmem
      obtain ⟨g0, hg0, heq⟩ := List.mem_map.mp hmem
      cases heq
      exact absurd htl.symm (bottom_top_timeline_ne next_gid)
    · rw [stripAnimations_fst_bottom mt infos used_gids next_gid hcb hct] at hmem
      obtain ⟨g0, hg0, heq⟩ := List.mem_map.mp hmem
      cases heq
      have hg0m : g0 ∈ (collectAnimatedHalves mt infos).bottom_layer_gids :=
        (List.mem_filter.mp hg0).1
      rcases foldl_bottom_gid_origin mt infos _ g0 hg0m with h0 | ⟨i, hi, hq, hgid⟩
      · cases h0
      · exact ⟨i, hi, hq, by rw [hgid]⟩
    · rw [stripAnimations_fst_both mt infos used_gids next_gid hcb hct] at hmem
      rcases List.mem_append.mp hmem with h | h
      · obtain ⟨g0, hg0, heq⟩ := List.mem_map.mp h
        cases heq
        have hg0m : g0 ∈ (collectAnimatedHalves mt infos).bottom_layer_gids :=
          (List.mem_filter.mp hg0).1
        rcases foldl_bottom_gid_origin mt infos _ g0 hg0m with h0 | ⟨i, hi, hq, hgid⟩
        · cases h0
        · exact ⟨i, hi, hq, by rw [hgid]⟩
      · obtain ⟨g0, hg0, heq⟩ := List.mem_map.mp h
        cases heq
        exact absurd htl.symm (bottom_top_timeline_ne next_gid)
  · intro g tl hmem htl
    by_cases hcb : (collectAnimatedHalves mt infos).all_bottom_tiles = [] <;>
      by_cases hct : (collectAnimatedHalves mt infos).all_top_tiles = []
    · rw [stripAnimations_fst_none mt infos used_gids next_gid hcb hct] at hmem
      cases hmem
    · rw [stripAnimations_fst_top mt infos used_gids next_gid hcb hct] at hmem
      obtain ⟨g0, hg0, heq⟩ := List.mem_map.mp hmem
      cases heq
      have hg0m : g0 ∈ (collectAnimatedHalves mt infos).top_layer_gids :=
        (List.mem_filter.mp hg0).1
      rcases foldl_top_gid_origin mt infos _ g0 hg0m with h0 | ⟨i, hi, hq, hgid⟩
      · cases h0
      · exact ⟨i, hi, hq, by rw [hgid]⟩
    · rw [stripAnimations_fst_bottom mt infos used_gids next_gid hcb hct] at hmem
      obtain ⟨g0, hg0, heq⟩ := List.mem_map.mp hmem
      cases heq
      exact absurd htl (bottom_top_timeline_ne next_gid)
    · rw [stripAnimations_fst_both mt infos used_gids next_gid hcb hct] at hmem
      rcases List.mem_append.mp hmem with h | h
      · obtain ⟨g0, hg0, heq⟩ := List.mem_map.mp h
        cases heq
        exact absurd htl (bottom_top_timeline_ne next_gid)
      · obtain ⟨g0, hg0, heq⟩ := List.mem_map.mp h
        cases heq
        have hg0m : g0 ∈ (collectAnimatedHalves mt infos).top_layer_gids :=
          (List.mem_filter.mp hg0).1
        rcases foldl_top_gid_origin mt infos _ g0 hg0m with h0 | ⟨i, hi, hq, hgid⟩
        · cases h0
        · exact ⟨i, hi, hq, by rw [hgid]⟩

def witnessMetatileTiles : List (Nat × Nat × Nat) :=
  [(0, 0, 0), (0, 0, 0), (0, 0, 0), (0, 0, 0),
   (432, 0, 0), (0, 0, 0), (0, 0, 0), (0, 0, 0)]

def witnessAnimInfos : List AnimInfo :=
  [{ anim_name := "water", frames := [[9]], duration_ms := 200, frame_sequence := none,
     actual_base_tile_id := 432, num_tiles := 30, is_metatile := false,
     layer_gid := 7, tile_position := 4 }]

theorem animation_half_targeting_witness :
    (∀ i ∈ witnessAnimInfos, ¬ qualifiesBottom witnessMetatileTiles i) ∧
    (∀ e ∈ (stripAnimationsForMetatile witnessMetatileTiles witnessAnimInfos [7] 1).1,
      e.2 = topFrameTimeline 1) :=
  ⟨by decide,
   (animation_half_targeting witnessMetatileTiles witnessAnimInfos [7] 1).1 (by decide)⟩

theorem bottomFrameTimeline_shape (next_gid : Nat) :
    (bottomFrameTimeline next_gid).length = 8 ∧
    ∀ p ∈ bottomFrameTimeline next_gid, p.2 = 200 := by
  constructor
  · simp [bottomFrameTimeline]
  · intro p hp
    obtain ⟨i, _, rfl⟩ := List.mem_map.mp hp
    rfl

theorem topFrameTimeline_shape (next_gid : Nat) :
    (topFrameTimeline next_gid).length = 8 ∧
    ∀ p ∈ topFrameTimeline next_gid, p.2 = 200 := by
  constructor
  · simp [topFrameTimeline]
  · intro p hp
    obtain ⟨i, _, rfl⟩ := List.mem_map.mp hp
    rfl

/-- C8: every timeline the strip branch attaches has exactly the 8 fixed
cycle entries, each with duration 200 ms; the frame-index selection
falls back to frame 0 for every step when no frame_sequence is given and
`num_tiles`, `len(frames)` or `len(frames) // num_tiles` is zero; and
the frame substitution only ever reads `frames` at an in-bounds index
(it leaves the base tile untouched otherwise), so it never raises. -/
theorem strip_timeline_safety (mt : List (Nat × Nat × Nat)) (infos : List AnimInfo)
    (used_gids : List Nat) (next_gid : Nat) :
    (∀ e ∈ (stripAnimationsForMetatile mt infos used_gids next_gid).1,
      e.2.length = 8 ∧ ∀ p ∈ e.2, p.2 = 200) ∧
    (∀ num_tiles frames_len frame_num : Nat,
      num_tiles = 0 ∨ frames_len = 0 ∨ frames_len / num_tiles = 0 →
      actualFrameForStep none num_tiles frames_len frame_num = 0) ∧
    (∀ (e : HalfTileEntry) (frame_num : Nat) (t : Tile),
      substituteFrameTile e frame_num = some t →
      ∃ i : Nat, i < e.frames.length ∧ t = e.frames.getD i []) := by
  refine ⟨?_, ?_, ?_⟩
  · intro e he
    by_cases hcb : (collectAnimatedHalves mt infos).all_bottom_tiles = [] <;>
      by_cases hct : (collectAnimatedHalves mt infos).all_top_tiles = []
    · rw [stripAnimations_fst_none mt infos used_gids next_gid hcb hct] at he
      cases he
    · rw [stripAnimations_fst_top mt infos used_gids next_gid hcb hct] at he
      obtain ⟨g, _, rfl⟩ := List.mem_map.mp he
      exact topFrameTimeline_shape next_gid
    · rw [stripAnimations_fst_bottom mt infos used_gids next_gid hcb hct] at he
      obtain ⟨g, _, rfl⟩ := List.mem_map.mp he
      exact bottomFrameTimeline_shape next_gid
    · rw [stripAnimations_fst_both mt infos used_gids next_gid hcb hct] at he
      rcases List.mem_append.mp he with h | h
      · obtain ⟨g, _, rfl⟩ := List.mem_map.mp h
        exact bottomFrameTimeline_shape next_gid
      · obtain ⟨g, _, rfl⟩ := List.mem_map.mp h
        exact topFrameTimeline_shape next_gid
  · intro num_tiles frames_len frame_num h
    unfold actualFrameForStep actualFrameFallback
    rcases h with h | h | h
    · simp [h]
    · simp [h]
    · simp [h]
  · intro e frame_num t h
    simp only [substituteFrameTile] at h
    split at h
    · next hcond =>
        injection h with h2
        exact ⟨_, by omega, h2.symm⟩
    · cases h

def witnessHalfTileEntry : HalfTileEntry :=
  { tile_id := 0, flip_flags := 0, anim_name := "water", frames := [[7]],
    actual_base := 0, num_tiles := 1, frame_seq := none, duration_ms := 200 }

theorem strip_timeline_safety_witness :
    ((0 : Nat) = 0 ∨ (5 : Nat) = 0 ∨ 5 / (0 : Nat) = 0) ∧
    actualFrameForStep none 0 5 3 = 0 ∧
    substituteFrameTile witnessHalfTileEntry 0 = some [7] ∧
    (∃ i : Nat, i < witnessHalfTileEntry.frames.length ∧
      [7] = witnessHalfTileEntry.frames.getD i []) :=
  ⟨Or.inl rfl,
   (strip_timeline_safety [] [] [] 1).2.1 0 5 3 (Or.inl rfl),
   by decide,
   (strip_timeline_safety [] [] [] 1).2.2 witnessHalfTileEntry 0 [7] (by decide)⟩
